import Mathlib

/-!
Shallow embedding of the azure-setup repository: the scraper module
(pytest_scraper/app/scraper.py together with its test) and the
provisioning script (script.py).  External effects — the HTTP request,
environment variables, the cloud SDK responses, docker, stdin — are
modelled as explicit inputs, and the SDK and docker calls a run performs
are recorded as a trace of operations.
-/

namespace Scraper

/-- Outcome of the request path inside scrape_example: either
requests.get succeeds and response.raise_for_status passes, yielding the
response text, or one of the two raises a requests.RequestException
carrying a message. -/
inductive RequestResult where
  | ok (text : String)
  | raisesRequestException (msg : String)
deriving Repr, DecidableEq

/-- A Python value as far as the test observes it: a str or a list. -/
inductive PyValue where
  | str (s : String)
  | list (xs : List PyValue)

/-- Python isinstance(v, list). -/
def isinstance_list : PyValue → Bool
  | .list _ => true
  | _ => false

/-- Python len on the values above. -/
def pyLen : PyValue → Nat
  | .str s => s.length
  | .list xs => xs.length

/-- scrape_example (scraper.py lines 5-17): try requests.get followed by
raise_for_status; on requests.RequestException print and return the
empty string; otherwise return response.text.  The Except layer records
whether an exception escapes the function: an .error value would be an
uncaught exception reaching the caller. -/
def scrape_example : RequestResult → Except String String
  | .ok text => .ok text
  | .raisesRequestException _ => .ok ""

/-- test_scraper_basic (pytest_scraper/tests/test_scraper.py): calls
scrape_example, then asserts isinstance(results, list) and
len(results) > 0; the Bool is whether both assertions hold. -/
def test_scraper_basic (r : RequestResult) : Except String Bool :=
  match scrape_example r with
  | .error e => .error e
  | .ok results =>
      .ok (isinstance_list (PyValue.str results) && decide (0 < pyLen (PyValue.str results)))

end Scraper

namespace Script

/-- RESOURCE_TAG (script.py line 19), the tag dict every created
resource is labelled with. -/
def RESOURCE_TAG : List (String × String) := [("blazetest", "true")]

/-- Python truthiness of an os.getenv result: None and the empty string
are falsy, every other string is truthy. -/
def truthy : Option String → Bool
  | none => false
  | some s => !s.isEmpty

/-- The environment variables get_credentials reads, in the order of its
os.getenv calls (script.py lines 23-26). -/
def get_credentials_reads : List String :=
  ["AZURE_CLIENT_ID", "AZURE_CLIENT_SECRET", "AZURE_TENANT_ID", "AZURE_SUBSCRIPTION_ID"]

/-- ClientSecretCredential(tenant_id, client_id, client_secret), the
object get_credentials builds on success. -/
structure ClientSecretCredential where
  tenant_id : String
  client_id : String
  client_secret : String
deriving Repr, DecidableEq

/-- get_credentials (script.py lines 22-30): read the four environment
variables, raise Exception when not all four are truthy, otherwise
return the credential together with the subscription id.  An .error
value is the raised exception. -/
def get_credentials (env : String → Option String) :
    Except String (ClientSecretCredential × String) :=
  let client_id := env "AZURE_CLIENT_ID"
  let client_secret := env "AZURE_CLIENT_SECRET"
  let tenant_id := env "AZURE_TENANT_ID"
  let subscription_id := env "AZURE_SUBSCRIPTION_ID"
  if !(truthy client_id && truthy client_secret && truthy tenant_id && truthy subscription_id) then
    .error "Azure credentials not fully set."
  else
    .ok (⟨tenant_id.getD "", client_id.getD "", client_secret.getD ""⟩, subscription_id.getD "")

/-- A resource group as the script observes it through the SDK listing:
its name and its optional tags dict. -/
structure ResourceGroup where
  name : String
  tags : Option (List (String × String))
deriving Repr, DecidableEq

/-- One SDK or docker call performed by the script, recorded with the
arguments the claims are about. -/
inductive AzureOp where
  | listResourceGroups
  | createResourceGroup (name location : String) (tags : List (String × String))
  | beginCreateStorageAccount (rg name : String) (tags : List (String × String))
  | beginCreateRegistry (rg name : String) (tags : List (String × String))
  | dockerBuild (image path : String)
  | listCredentials (rg name : String)
  | dockerLogin (server username : String)
  | dockerPush (image : String)
  | beginCreateContainerGroup (rg name image server username password : String)
  | listLogs (rg cg container : String)
  | getContainerGroup (rg cg : String)
  | sleep (seconds : Nat)
  | beginDeleteContainerGroup (rg cg : String)
  | beginDeleteResourceGroup (name : String)
deriving Repr, DecidableEq

/-- rg_name as fixed in run_tests_in_aci and setup. -/
def rg_name : String := "blazetest-rg"

/-- container_group_name fixed in run_tests_in_aci. -/
def container_group_name : String := "blazetest-test-runner"

/-- container_name fixed in run_tests_in_aci. -/
def container_name : String := "pytest-container"

/-- The instance_view states on which the polling loop exits
(script.py line 91). -/
def terminal_states : List String := ["Terminated", "Succeeded", "Failed"]

/-- How a modelled run of a subcommand ended: an exception propagated
out, the polling loop had not yet exited within the modelled bound, or
the function returned normally. -/
inductive RunOutcome where
  | raised (msg : String)
  | outOfFuel
  | completed
deriving Repr, DecidableEq

/-- init (script.py lines 33-38): verify credentials, list the resource
groups, print their count.  rgs is the listing the SDK returns. -/
def init (env : String → Option String) (rgs : List ResourceGroup) :
    List AzureOp × Except String Nat :=
  match get_credentials env with
  | .error e => ([], .error e)
  | .ok _ => ([.listResourceGroups], .ok rgs.length)

/-- The log-streaming loop of run_tests_in_aci (script.py lines 84-94):
iteration i lists the logs, gets the container group, exits when the
reported state (states i) is terminal, and otherwise sleeps 2 seconds
and continues.  fuel bounds how many iterations the model unrolls; the
Bool records whether the loop has exited within that bound. -/
def pollLoop (states : Nat → String) (i fuel : Nat) : List AzureOp × Bool :=
  match fuel with
  | 0 => ([], false)
  | fuel' + 1 =>
    let ops : List AzureOp :=
      [.listLogs rg_name container_group_name container_name,
       .getContainerGroup rg_name container_group_name]
    if terminal_states.contains (states i) then (ops, true)
    else
      let rest := pollLoop states (i + 1) fuel'
      (ops ++ AzureOp.sleep 2 :: rest.1, rest.2)

/-- run_tests_in_aci (script.py lines 41-98): verify credentials, create
the container group, run the polling loop, and delete the container
group once the loop exits. -/
def run_tests_in_aci (env : String → Option String)
    (image_name acr_username acr_password registry_login_server : String)
    (states : Nat → String) (fuel : Nat) : List AzureOp × RunOutcome :=
  match get_credentials env with
  | .error e => ([], .raised e)
  | .ok _ =>
    let createOp := AzureOp.beginCreateContainerGroup rg_name container_group_name
      image_name registry_login_server acr_username acr_password
    let rest := pollLoop states 0 fuel
    if rest.2 then
      (createOp :: rest.1 ++ [.beginDeleteContainerGroup rg_name container_group_name],
       .completed)
    else (createOp :: rest.1, .outOfFuel)

/-- setup (script.py lines 101-156): create the resource group, the
storage account and the registry, build, log in and push the image, then
run the tests in ACI.  The os.urandom(3).hex() name suffixes, the login
server the registry creation returns and the credentials that
list_credentials returns are inputs of the model. -/
def setup (env : String → Option String)
    (storage_suffix acr_suffix login_server acr_username acr_password : String)
    (states : Nat → String) (fuel : Nat) : List AzureOp × RunOutcome :=
  match get_credentials env with
  | .error e => ([], .raised e)
  | .ok _ =>
    let storage_name := "blazeteststorage" ++ storage_suffix
    let acr_name := "blazetestacr" ++ acr_suffix
    let image_name := login_server ++ "/google-scraper:latest"
    let pre : List AzureOp :=
      [.createResourceGroup rg_name "eastus" RESOURCE_TAG,
       .beginCreateStorageAccount rg_name storage_name RESOURCE_TAG,
       .beginCreateRegistry rg_name acr_name RESOURCE_TAG,
       .dockerBuild image_name "./pytest_scraper",
       .listCredentials rg_name acr_name,
       .dockerLogin login_server acr_username,
       .dockerPush image_name]
    let rest := run_tests_in_aci env image_name acr_username acr_password login_server states fuel
    (pre ++ rest.1, rest.2)

/-- The filter reset applies to each listed resource group (script.py
lines 164-167): rg.tags and rg.tags.get("blazetest") == "true", under
Python truthiness of the tags dict. -/
def resetFilter (rg : ResourceGroup) : Bool :=
  match rg.tags with
  | none => false
  | some ts => !ts.isEmpty && (ts.lookup "blazetest" == some "true")

/-- rgs_to_delete: the names of the groups passing the filter. -/
def rgs_to_delete (rgs : List ResourceGroup) : List String :=
  (rgs.filter resetFilter).map ResourceGroup.name

/-- reset (script.py lines 159-184): list the groups, keep the tagged
ones, return when none qualifies; confirm is the interactive input, and
deletion proceeds only when its lowercase form equals y. -/
def reset (env : String → Option String) (rgs : List ResourceGroup) (confirm : String) :
    List AzureOp × Except String Unit :=
  match get_credentials env with
  | .error e => ([], .error e)
  | .ok _ =>
    let toDelete := rgs_to_delete rgs
    if toDelete.isEmpty then ([.listResourceGroups], .ok ())
    else if confirm.toLower ≠ "y" then ([.listResourceGroups], .ok ())
    else ([.listResourceGroups] ++ toDelete.map AzureOp.beginDeleteResourceGroup, .ok ())

/-- The argparse choices of the command positional argument
(script.py line 189). -/
def choices : List String := ["init", "setup", "reset"]

/-- Which function main invokes for an accepted command. -/
inductive Invoked where
  | initFn
  | setupFn
  | resetFn
deriving Repr, DecidableEq

/-- main (script.py lines 187-197): argparse accepts the command only
when it is one of the choices and then main dispatches on it; none
models argparse rejecting the argument. -/
def main (cmd : String) : Option Invoked :=
  if cmd ∈ choices then
    if cmd = "init" then some .initFn
    else if cmd = "setup" then some .setupFn
    else if cmd = "reset" then some .resetFn
    else none
  else none

/-- The eight steps of the setup sequence named by claim C3. -/
inductive SetupStep where
  | createRG
  | createStorage
  | createRegistry
  | buildImage
  | pushImage
  | createContainerInstance
  | pollStatus
  | deleteContainerInstance
deriving Repr, DecidableEq

/-- Project an operation onto the step of the claimed sequence it
realises; auxiliary calls (listing groups or credentials, docker login,
log listing, sleeping) project to none. -/
def stepOf : AzureOp → Option SetupStep
  | .createResourceGroup .. => some .createRG
  | .beginCreateStorageAccount .. => some .createStorage
  | .beginCreateRegistry .. => some .createRegistry
  | .dockerBuild .. => some .buildImage
  | .dockerPush .. => some .pushImage
  | .beginCreateContainerGroup .. => some .createContainerInstance
  | .getContainerGroup .. => some .pollStatus
  | .beginDeleteContainerGroup .. => some .deleteContainerInstance
  | _ => none

end Script

namespace Script

/-- The polling loop exits within its bound exactly when some iteration
it reaches reports a terminal state. -/
theorem pollLoop_exit_iff (states : Nat → String) :
    ∀ fuel i, (pollLoop states i fuel).2 = true ↔
      ∃ j, j < fuel ∧ states (i + j) ∈ terminal_states := by
  intro fuel
  induction fuel with
  | zero =>
      intro i
      simp [pollLoop]
  | succ fuel ih =>
      intro i
      by_cases h : states i ∈ terminal_states
      · constructor
        · intro _
          exact ⟨0, Nat.succ_pos fuel, by simpa using h⟩
        · intro _
          simp [pollLoop, h]
      · constructor
        · intro hx
          have hx2 : (pollLoop states (i + 1) fuel).2 = true := by
            simpa [pollLoop, h] using hx
          obtain ⟨j, hj, hterm⟩ := (ih (i + 1)).mp hx2
          refine ⟨j + 1, by omega, ?_⟩
          have harg : i + (j + 1) = i + 1 + j := by omega
          rw [harg]
          exact hterm
        · rintro ⟨j, hj, hterm⟩
          cases j with
          | zero => exact absurd (by simpa using hterm) h
          | succ j' =>
              have harg : i + (j' + 1) = i + 1 + j' := by omega
              rw [harg] at hterm
              have hx2 : (pollLoop states (i + 1) fuel).2 = true :=
                (ih (i + 1)).mpr ⟨j', by omega, hterm⟩
              simpa [pollLoop, h] using hx2

/-- Every operation the polling loop records is a log listing, a status
poll, or a 2-second sleep. -/
theorem pollLoop_mem (states : Nat → String) :
    ∀ fuel i op, op ∈ (pollLoop states i fuel).1 →
      op = AzureOp.listLogs rg_name container_group_name container_name ∨
      op = AzureOp.getContainerGroup rg_name container_group_name ∨
      op = AzureOp.sleep 2 := by
  intro fuel
  induction fuel with
  | zero =>
      intro i op hop
      simp [pollLoop] at hop
  | succ fuel ih =>
      intro i op hop
      by_cases h : states i ∈ terminal_states
      · simp [pollLoop, h] at hop
        rcases hop with h1 | h1 <;> simp [h1]
      · simp [pollLoop, h] at hop
        rcases hop with h1 | h1 | h1 | h1
        · simp [h1]
        · simp [h1]
        · simp [h1]
        · exact ih (i + 1) op h1

/-- When the loop reaches a terminal state within its bound, the steps
it contributes to the setup sequence are one or more status polls. -/
theorem pollLoop_filterMap (states : Nat → String) :
    ∀ fuel i, (∃ j, j < fuel ∧ states (i + j) ∈ terminal_states) →
      ∃ k, 1 ≤ k ∧
        (pollLoop states i fuel).1.filterMap stepOf =
          List.replicate k SetupStep.pollStatus := by
  intro fuel
  induction fuel with
  | zero =>
      rintro i ⟨j, hj, _⟩
      omega
  | succ fuel ih =>
      intro i hex
      by_cases h : states i ∈ terminal_states
      · refine ⟨1, le_refl 1, ?_⟩
        simp [pollLoop, h, stepOf]
      · obtain ⟨j, hj, hterm⟩ := hex
        cases j with
        | zero => exact absurd (by simpa using hterm) h
        | succ j' =>
            have harg : i + (j' + 1) = i + 1 + j' := by omega
            rw [harg] at hterm
            obtain ⟨k, hk, hfm⟩ := ih (i + 1) ⟨j', by omega, hterm⟩
            refine ⟨k + 1, by omega, ?_⟩
            simp [pollLoop, h, stepOf, hfm, List.replicate_succ]

/-- Every operation a run of run_tests_in_aci with valid credentials
records is the container-group creation, a loop operation, or the final
container-group deletion. -/
theorem run_tests_in_aci_mem (env : String → Option String)
    (a b c d : String) (states : Nat → String) (fuel : Nat)
    (cred : ClientSecretCredential × String)
    (hc : get_credentials env = Except.ok cred) (op : AzureOp)
    (hop : op ∈ (run_tests_in_aci env a b c d states fuel).1) :
    op = AzureOp.beginCreateContainerGroup rg_name container_group_name a d b c ∨
    op ∈ (pollLoop states 0 fuel).1 ∨
    op = AzureOp.beginDeleteContainerGroup rg_name container_group_name := by
  by_cases hp : (pollLoop states 0 fuel).2 = true
  · simp [run_tests_in_aci, hc, hp] at hop
    rcases hop with h1 | h1 | h1
    · exact Or.inl h1
    · exact Or.inr (Or.inl h1)
    · exact Or.inr (Or.inr h1)
  · simp [run_tests_in_aci, hc, hp] at hop
    rcases hop with h1 | h1
    · exact Or.inl h1
    · exact Or.inr (Or.inl h1)

/-- A membership characterisation of the deletion candidate list that
reset computes. -/
theorem mem_rgs_to_delete (rgs : List ResourceGroup) (name : String) :
    name ∈ rgs_to_delete rgs ↔
      ∃ rg ∈ rgs, rg.name = name ∧ resetFilter rg = true := by
  constructor
  · intro hmem
    obtain ⟨rg, hrg, hn⟩ := List.mem_map.mp hmem
    obtain ⟨hm, hf⟩ := List.mem_filter.mp hrg
    exact ⟨rg, hm, hn, hf⟩
  · rintro ⟨rg, hm, hn, hf⟩
    exact List.mem_map.mpr ⟨rg, List.mem_filter.mpr ⟨hm, hf⟩, hn⟩

end Script

/-- C1: every execution path of scrape_example returns a string — the
response text on success, the empty string on request failure — so
isinstance(results, list) is false on every value scrape_example can
return, and the sole test test_scraper_basic fails on every path. -/
theorem scrape_example_never_returns_list (r : Scraper.RequestResult) :
    ∃ s : String, Scraper.scrape_example r = .ok s ∧
      Scraper.isinstance_list (Scraper.PyValue.str s) = false ∧
      Scraper.test_scraper_basic r = .ok false := by
  cases r with
  | ok text =>
      exact ⟨text, rfl, rfl, by
        simp [Scraper.test_scraper_basic, Scraper.scrape_example, Scraper.isinstance_list]⟩
  | raisesRequestException m =>
      exact ⟨"", rfl, rfl, by
        simp [Scraper.test_scraper_basic, Scraper.scrape_example, Scraper.isinstance_list]⟩

/-- C2: scrape_example is a single guarded HTTP call: when the request
path raises a requests.RequestException it returns the empty string,
when the request succeeds it returns the response body unchanged, and no
exception escapes from the request path. -/
theorem scrape_example_guard_behaviour :
    (∀ t, Scraper.scrape_example (.ok t) = .ok t) ∧
    (∀ m, Scraper.scrape_example (.raisesRequestException m) = .ok "") ∧
    (∀ r e, Scraper.scrape_example r ≠ .error e) := by
  refine ⟨fun t => rfl, fun m => rfl, fun r e => ?_⟩
  cases r <;> simp [Scraper.scrape_example]

/-- C4: the log-polling loop waits a fixed 2 seconds between iterations
with no backoff and no timeout, exits exactly when the reported
container-group state is Terminated, Succeeded or Failed, and never
exits when no iteration reports one of those states, however far the
model unrolls it. -/
theorem pollLoop_fixed_interval_and_exit (states : Nat → String) (fuel : Nat) :
    ((Script.pollLoop states 0 fuel).2 = true ↔
      ∃ j, j < fuel ∧ states j ∈ Script.terminal_states) ∧
    (∀ s, Script.AzureOp.sleep s ∈ (Script.pollLoop states 0 fuel).1 → s = 2) ∧
    ((∀ j, states j ∉ Script.terminal_states) →
      (Script.pollLoop states 0 fuel).2 = false) := by
  refine ⟨?_, ?_, ?_⟩
  · simpa using Script.pollLoop_exit_iff states fuel 0
  · intro s hs
    rcases Script.pollLoop_mem states fuel 0 _ hs with h | h | h
    · simp at h
    · simp at h
    · injection h with h2
  · intro hall
    cases hb : (Script.pollLoop states 0 fuel).2 with
    | false => rfl
    | true =>
        obtain ⟨j, _, hterm⟩ := (Script.pollLoop_exit_iff states fuel 0).mp hb
        rw [Nat.zero_add] at hterm
        exact absurd hterm (hall j)

/-- C4 witness: the statement instantiated at a run whose reported state
is never terminal. -/
theorem pollLoop_fixed_interval_and_exit_witness :
    (((Script.pollLoop (fun _ : Nat => "Running") 0 3).2 = true ↔
      ∃ j, j < 3 ∧ (fun _ : Nat => "Running") j ∈ Script.terminal_states) ∧
    (∀ s, Script.AzureOp.sleep s ∈ (Script.pollLoop (fun _ : Nat => "Running") 0 3).1 → s = 2) ∧
    ((∀ j, (fun _ : Nat => "Running") j ∉ Script.terminal_states) →
      (Script.pollLoop (fun _ : Nat => "Running") 0 3).2 = false)) :=
  pollLoop_fixed_interval_and_exit (fun _ : Nat => "Running") 3

/-- C10: on every run of run_tests_in_aci in which the polling loop
exits — whatever terminal state ended it — the container group deletion
is the last operation performed before the function returns. -/
theorem run_tests_in_aci_deletes_group (env : String → Option String)
    (image_name acr_username acr_password registry_login_server : String)
    (states : Nat → String) (fuel : Nat)
    (h : (Script.run_tests_in_aci env image_name acr_username acr_password
            registry_login_server states fuel).2 = Script.RunOutcome.completed) :
    (Script.run_tests_in_aci env image_name acr_username acr_password
        registry_login_server states fuel).1.getLast? =
      some (Script.AzureOp.beginDeleteContainerGroup
        Script.rg_name Script.container_group_name) := by
  cases hc : Script.get_credentials env with
  | error e =>
      rw [Script.run_tests_in_aci, hc] at h
      simp at h
  | ok c =>
      by_cases hp : (Script.pollLoop states 0 fuel).2 = true
      · rw [Script.run_tests_in_aci, hc]
        simp only [hp, if_true]
        exact List.getLast?_concat _
      · rw [Script.run_tests_in_aci, hc] at h
        simp [hp] at h

/-- C10 witness: a run whose container reaches the Succeeded state on
the first poll ends with the container-group deletion. -/
theorem run_tests_in_aci_deletes_group_witness :
    (Script.run_tests_in_aci (fun _ => some "x") "img" "u" "p" "srv"
        (fun _ => "Succeeded") 1).1.getLast? =
      some (Script.AzureOp.beginDeleteContainerGroup
        Script.rg_name Script.container_group_name) :=
  run_tests_in_aci_deletes_group (fun _ => some "x") "img" "u" "p" "srv"
    (fun _ => "Succeeded") 1 (by decide)

/-- C3: a setup run whose credential check passes and whose polling loop
reaches a terminal state performs the claimed steps in exactly the
claimed order — resource group, storage account, registry, image build,
image push, container-instance creation, one or more status polls,
container-instance deletion — each non-poll step exactly once, with
nothing retried, skipped or reordered. -/
theorem setup_step_sequence (env : String → Option String)
    (storage_suffix acr_suffix login_server acr_username acr_password : String)
    (states : Nat → String) (fuel : Nat)
    (hcred : ∃ c, Script.get_credentials env = Except.ok c)
    (hterm : ∃ j, j < fuel ∧ states j ∈ Script.terminal_states) :
    ∃ k, 1 ≤ k ∧
      (Script.setup env storage_suffix acr_suffix login_server acr_username acr_password
          states fuel).1.filterMap Script.stepOf =
        [Script.SetupStep.createRG, Script.SetupStep.createStorage,
         Script.SetupStep.createRegistry, Script.SetupStep.buildImage,
         Script.SetupStep.pushImage, Script.SetupStep.createContainerInstance] ++
          List.replicate k Script.SetupStep.pollStatus ++
          [Script.SetupStep.deleteContainerInstance] ∧
      (Script.setup env storage_suffix acr_suffix login_server acr_username acr_password
          states fuel).2 = Script.RunOutcome.completed := by
  obtain ⟨c, hc⟩ := hcred
  have hterm0 : ∃ j, j < fuel ∧ states (0 + j) ∈ Script.terminal_states := by
    obtain ⟨j, hj, ht⟩ := hterm
    exact ⟨j, hj, by simpa using ht⟩
  obtain ⟨k, hk, hfm⟩ := Script.pollLoop_filterMap states fuel 0 hterm0
  have hp : (Script.pollLoop states 0 fuel).2 = true :=
    (Script.pollLoop_exit_iff states fuel 0).mpr hterm0
  refine ⟨k, hk, ?_, ?_⟩
  · simp [Script.setup, Script.run_tests_in_aci, hc, hp, Script.stepOf, hfm,
      List.filterMap_append]
  · simp [Script.setup, Script.run_tests_in_aci, hc, hp]

/-- C3 witness: the statement instantiated at a run with valid
credentials whose container reaches the Succeeded state immediately. -/
theorem setup_step_sequence_witness :
    ∃ k, 1 ≤ k ∧
      (Script.setup (fun _ => some "x") "aaa" "bbb" "srv" "u" "p"
          (fun _ : Nat => "Succeeded") 1).1.filterMap Script.stepOf =
        [Script.SetupStep.createRG, Script.SetupStep.createStorage,
         Script.SetupStep.createRegistry, Script.SetupStep.buildImage,
         Script.SetupStep.pushImage, Script.SetupStep.createContainerInstance] ++
          List.replicate k Script.SetupStep.pollStatus ++
          [Script.SetupStep.deleteContainerInstance] ∧
      (Script.setup (fun _ => some "x") "aaa" "bbb" "srv" "u" "p"
          (fun _ : Nat => "Succeeded") 1).2 = Script.RunOutcome.completed :=
  setup_step_sequence (fun _ => some "x") "aaa" "bbb" "srv" "u" "p"
    (fun _ : Nat => "Succeeded") 1 ⟨(⟨"x", "x", "x"⟩, "x"), rfl⟩
    ⟨0, by decide⟩

/-- C5: get_credentials reads exactly the four AZURE environment
variables — its result depends on no other variable — raises precisely
when at least one of them is unset or empty, and otherwise returns the
ClientSecretCredential built from the tenant, client and secret values
together with the subscription id. -/
theorem get_credentials_spec (env : String → Option String) :
    (Script.get_credentials env = Except.error "Azure credentials not fully set." ↔
      ∃ v ∈ Script.get_credentials_reads, Script.truthy (env v) = false) ∧
    ((∀ v ∈ Script.get_credentials_reads, Script.truthy (env v) = true) →
      Script.get_credentials env =
        Except.ok
          (⟨(env "AZURE_TENANT_ID").getD "", (env "AZURE_CLIENT_ID").getD "",
            (env "AZURE_CLIENT_SECRET").getD ""⟩,
           (env "AZURE_SUBSCRIPTION_ID").getD "")) ∧
    (∀ env2 : String → Option String,
      (∀ v ∈ Script.get_credentials_reads, env v = env2 v) →
      Script.get_credentials env = Script.get_credentials env2) := by
  refine ⟨?_, ?_, ?_⟩
  · cases hb1 : Script.truthy (env "AZURE_CLIENT_ID") <;>
    cases hb2 : Script.truthy (env "AZURE_CLIENT_SECRET") <;>
    cases hb3 : Script.truthy (env "AZURE_TENANT_ID") <;>
    cases hb4 : Script.truthy (env "AZURE_SUBSCRIPTION_ID") <;>
    simp [Script.get_credentials, Script.get_credentials_reads, hb1, hb2, hb3, hb4]
  · intro hall
    have hb1 := hall "AZURE_CLIENT_ID" (by simp [Script.get_credentials_reads])
    have hb2 := hall "AZURE_CLIENT_SECRET" (by simp [Script.get_credentials_reads])
    have hb3 := hall "AZURE_TENANT_ID" (by simp [Script.get_credentials_reads])
    have hb4 := hall "AZURE_SUBSCRIPTION_ID" (by simp [Script.get_credentials_reads])
    simp [Script.get_credentials, hb1, hb2, hb3, hb4]
  · intro env2 hagree
    have e1 := hagree "AZURE_CLIENT_ID" (by simp [Script.get_credentials_reads])
    have e2 := hagree "AZURE_CLIENT_SECRET" (by simp [Script.get_credentials_reads])
    have e3 := hagree "AZURE_TENANT_ID" (by simp [Script.get_credentials_reads])
    have e4 := hagree "AZURE_SUBSCRIPTION_ID" (by simp [Script.get_credentials_reads])
    simp only [Script.get_credentials, e1, e2, e3, e4]

/-- C5 witness: the statement instantiated at an environment assigning
"x" to every variable. -/
theorem get_credentials_spec_witness :
    (Script.get_credentials (fun _ => some "x") =
        Except.error "Azure credentials not fully set." ↔
      ∃ v ∈ Script.get_credentials_reads,
        Script.truthy ((fun _ : String => some "x") v) = false) ∧
    ((∀ v ∈ Script.get_credentials_reads,
        Script.truthy ((fun _ : String => some "x") v) = true) →
      Script.get_credentials (fun _ => some "x") =
        Except.ok
          (⟨((fun _ : String => some "x") "AZURE_TENANT_ID").getD "",
            ((fun _ : String => some "x") "AZURE_CLIENT_ID").getD "",
            ((fun _ : String => some "x") "AZURE_CLIENT_SECRET").getD ""⟩,
           ((fun _ : String => some "x") "AZURE_SUBSCRIPTION_ID").getD "")) ∧
    (∀ env2 : String → Option String,
      (∀ v ∈ Script.get_credentials_reads, (fun _ : String => some "x") v = env2 v) →
      Script.get_credentials (fun _ => some "x") = Script.get_credentials env2) :=
  get_credentials_spec (fun _ => some "x")

/-- C6: main accepts exactly the three subcommands init, setup and
reset, dispatches each to the function of the same name, and rejects
every other command argument. -/
theorem main_dispatch_spec :
    Script.main "init" = some Script.Invoked.initFn ∧
    Script.main "setup" = some Script.Invoked.setupFn ∧
    Script.main "reset" = some Script.Invoked.resetFn ∧
    ∀ cmd, cmd ≠ "init" → cmd ≠ "setup" → cmd ≠ "reset" →
      Script.main cmd = none := by
  refine ⟨by decide, by decide, by decide, ?_⟩
  intro cmd h1 h2 h3
  simp [Script.main, Script.choices, h1, h2, h3]

/-- C7 counterexample: run the init subcommand with every credential
variable unset; the exception raised while validating credentials is
caught nowhere and propagates out of the subcommand, so the claimed
catch-all around credential validation does not exist in the code. -/
theorem credential_error_escapes_init :
    (Script.init (fun _ => none) []).2 =
      Except.error "Azure credentials not fully set." := rfl

/-- C7 amended: the only exception handler in the repository is the
requests.RequestException handler around the HTTP call in
scrape_example, from which no exception escapes; an exception raised
while validating credentials is not caught and propagates out of init,
setup, run_tests_in_aci and reset alike. -/
theorem error_handling_inventory (env : String → Option String) (e : String)
    (h : Script.get_credentials env = Except.error e) :
    (∀ rgs, (Script.init env rgs).2 = Except.error e) ∧
    (∀ ss as ls au ap states fuel,
      (Script.setup env ss as ls au ap states fuel).2 = Script.RunOutcome.raised e) ∧
    (∀ a b c d states fuel,
      (Script.run_tests_in_aci env a b c d states fuel).2 =
        Script.RunOutcome.raised e) ∧
    (∀ rgs confirm, (Script.reset env rgs confirm).2 = Except.error e) ∧
    (∀ r x, Scraper.scrape_example r ≠ Except.error x) := by
  refine ⟨?_, ?_, ?_, ?_, ?_⟩
  · intro rgs
    simp [Script.init, h]
  · intro ss as ls au ap states fuel
    simp [Script.setup, h]
  · intro a b c d states fuel
    simp [Script.run_tests_in_aci, h]
  · intro rgs confirm
    simp [Script.reset, h]
  · intro r x
    cases r <;> simp [Scraper.scrape_example]

/-- C7 amended witness: the statement instantiated at the all-unset
environment. -/
theorem error_handling_inventory_witness :
    (∀ rgs, (Script.init (fun _ => none) rgs).2 =
      Except.error "Azure credentials not fully set.") ∧
    (∀ ss as ls au ap states fuel,
      (Script.setup (fun _ => none) ss as ls au ap states fuel).2 =
        Script.RunOutcome.raised "Azure credentials not fully set.") ∧
    (∀ a b c d states fuel,
      (Script.run_tests_in_aci (fun _ => none) a b c d states fuel).2 =
        Script.RunOutcome.raised "Azure credentials not fully set.") ∧
    (∀ rgs confirm, (Script.reset (fun _ => none) rgs confirm).2 =
      Except.error "Azure credentials not fully set.") ∧
    (∀ r x, Scraper.scrape_example r ≠ Except.error x) :=
  error_handling_inventory (fun _ => none) "Azure credentials not fully set." rfl

/-- C8: every resource setup creates with an explicit tags argument —
the resource group, the storage account and the registry — carries
exactly the blazetest=true tag, reset's filter accepts a group carrying
that tag, and the group setup creates is therefore always among reset's
deletion candidates whenever it is listed. -/
theorem setup_tags_and_reset_candidates (env : String → Option String)
    (ss acrs ls au ap : String) (states : Nat → String) (fuel : Nat)
    (hcred : ∃ c, Script.get_credentials env = Except.ok c) :
    Script.AzureOp.createResourceGroup Script.rg_name "eastus" Script.RESOURCE_TAG ∈
      (Script.setup env ss acrs ls au ap states fuel).1 ∧
    Script.AzureOp.beginCreateStorageAccount Script.rg_name
        ("blazeteststorage" ++ ss) Script.RESOURCE_TAG ∈
      (Script.setup env ss acrs ls au ap states fuel).1 ∧
    Script.AzureOp.beginCreateRegistry Script.rg_name
        ("blazetestacr" ++ acrs) Script.RESOURCE_TAG ∈
      (Script.setup env ss acrs ls au ap states fuel).1 ∧
    (∀ n l t, Script.AzureOp.createResourceGroup n l t ∈
      (Script.setup env ss acrs ls au ap states fuel).1 → t = Script.RESOURCE_TAG) ∧
    (∀ g n t, Script.AzureOp.beginCreateStorageAccount g n t ∈
      (Script.setup env ss acrs ls au ap states fuel).1 → t = Script.RESOURCE_TAG) ∧
    (∀ g n t, Script.AzureOp.beginCreateRegistry g n t ∈
      (Script.setup env ss acrs ls au ap states fuel).1 → t = Script.RESOURCE_TAG) ∧
    Script.resetFilter ⟨Script.rg_name, some Script.RESOURCE_TAG⟩ = true ∧
    (∀ rgs : List Script.ResourceGroup,
      (⟨Script.rg_name, some Script.RESOURCE_TAG⟩ : Script.ResourceGroup) ∈ rgs →
      Script.rg_name ∈ Script.rgs_to_delete rgs) := by
  obtain ⟨cr, hc⟩ := hcred
  have htr : (Script.setup env ss acrs ls au ap states fuel).1 =
      [Script.AzureOp.createResourceGroup Script.rg_name "eastus" Script.RESOURCE_TAG,
       Script.AzureOp.beginCreateStorageAccount Script.rg_name
         ("blazeteststorage" ++ ss) Script.RESOURCE_TAG,
       Script.AzureOp.beginCreateRegistry Script.rg_name
         ("blazetestacr" ++ acrs) Script.RESOURCE_TAG,
       Script.AzureOp.dockerBuild (ls ++ "/google-scraper:latest") "./pytest_scraper",
       Script.AzureOp.listCredentials Script.rg_name ("blazetestacr" ++ acrs),
       Script.AzureOp.dockerLogin ls au,
       Script.AzureOp.dockerPush (ls ++ "/google-scraper:latest")] ++
      (Script.run_tests_in_aci env (ls ++ "/google-scraper:latest") au ap ls
        states fuel).1 := by
    simp [Script.setup, hc]
  refine ⟨?_, ?_, ?_, ?_, ?_, ?_, ?_, ?_⟩
  · rw [htr]; simp
  · rw [htr]; simp
  · rw [htr]; simp
  · intro n l t hmem
    rw [htr] at hmem
    rcases List.mem_append.mp hmem with h | h
    · simp at h
      exact h.2.2
    · rcases Script.run_tests_in_aci_mem env _ _ _ _ states fuel cr hc _ h with
        h2 | h2 | h2
      · simp at h2
      · rcases Script.pollLoop_mem states fuel 0 _ h2 with h3 | h3 | h3 <;> simp at h3
      · simp at h2
  · intro g n t hmem
    rw [htr] at hmem
    rcases List.mem_append.mp hmem with h | h
    · simp at h
      exact h.2.2
    · rcases Script.run_tests_in_aci_mem env _ _ _ _ states fuel cr hc _ h with
        h2 | h2 | h2
      · simp at h2
      · rcases Script.pollLoop_mem states fuel 0 _ h2 with h3 | h3 | h3 <;> simp at h3
      · simp at h2
  · intro g n t hmem
    rw [htr] at hmem
    rcases List.mem_append.mp hmem with h | h
    · simp at h
      exact h.2.2
    · rcases Script.run_tests_in_aci_mem env _ _ _ _ states fuel cr hc _ h with
        h2 | h2 | h2
      · simp at h2
      · rcases Script.pollLoop_mem states fuel 0 _ h2 with h3 | h3 | h3 <;> simp at h3
      · simp at h2
  · rfl
  · intro rgs hmem
    exact (Script.mem_rgs_to_delete rgs Script.rg_name).mpr
      ⟨⟨Script.rg_name, some Script.RESOURCE_TAG⟩, hmem, rfl, rfl⟩

/-- C8 witness: the statement instantiated at an environment with all
credentials present and concrete name suffixes. -/
theorem setup_tags_and_reset_candidates_witness :
    Script.AzureOp.createResourceGroup Script.rg_name "eastus" Script.RESOURCE_TAG ∈
      (Script.setup (fun _ => some "x") "aaa" "bbb" "srv" "u" "p"
        (fun _ : Nat => "Succeeded") 1).1 ∧
    Script.AzureOp.beginCreateStorageAccount Script.rg_name
        ("blazeteststorage" ++ "aaa") Script.RESOURCE_TAG ∈
      (Script.setup (fun _ => some "x") "aaa" "bbb" "srv" "u" "p"
        (fun _ : Nat => "Succeeded") 1).1 ∧
    Script.AzureOp.beginCreateRegistry Script.rg_name
        ("blazetestacr" ++ "bbb") Script.RESOURCE_TAG ∈
      (Script.setup (fun _ => some "x") "aaa" "bbb" "srv" "u" "p"
        (fun _ : Nat => "Succeeded") 1).1 ∧
    (∀ n l t, Script.AzureOp.createResourceGroup n l t ∈
      (Script.setup (fun _ => some "x") "aaa" "bbb" "srv" "u" "p"
        (fun _ : Nat => "Succeeded") 1).1 → t = Script.RESOURCE_TAG) ∧
    (∀ g n t, Script.AzureOp.beginCreateStorageAccount g n t ∈
      (Script.setup (fun _ => some "x") "aaa" "bbb" "srv" "u" "p"
        (fun _ : Nat => "Succeeded") 1).1 → t = Script.RESOURCE_TAG) ∧
    (∀ g n t, Script.AzureOp.beginCreateRegistry g n t ∈
      (Script.setup (fun _ => some "x") "aaa" "bbb" "srv" "u" "p"
        (fun _ : Nat => "Succeeded") 1).1 → t = Script.RESOURCE_TAG) ∧
    Script.resetFilter ⟨Script.rg_name, some Script.RESOURCE_TAG⟩ = true ∧
    (∀ rgs : List Script.ResourceGroup,
      (⟨Script.rg_name, some Script.RESOURCE_TAG⟩ : Script.ResourceGroup) ∈ rgs →
      Script.rg_name ∈ Script.rgs_to_delete rgs) :=
  setup_tags_and_reset_candidates (fun _ => some "x") "aaa" "bbb" "srv" "u" "p"
    (fun _ : Nat => "Succeeded") 1 ⟨(⟨"x", "x", "x"⟩, "x"), rfl⟩

/-- C9: with valid credentials, reset issues a delete for a group name
exactly when the lowercased confirmation equals y and the name belongs
to a listed group passing the blazetest=true tag filter; for any other
confirmation, and whenever no listed group passes the filter, its trace
is the read-only group listing and no delete is issued. -/
theorem reset_delete_conditions (env : String → Option String)
    (rgs : List Script.ResourceGroup) (confirm : String)
    (hcred : ∃ c, Script.get_credentials env = Except.ok c) :
    (∀ name, Script.AzureOp.beginDeleteResourceGroup name ∈
        (Script.reset env rgs confirm).1 ↔
      (confirm.toLower = "y" ∧
        ∃ rg ∈ rgs, rg.name = name ∧ Script.resetFilter rg = true)) ∧
    ((confirm.toLower ≠ "y" ∨ Script.rgs_to_delete rgs = []) →
      (Script.reset env rgs confirm).1 = [Script.AzureOp.listResourceGroups]) := by
  obtain ⟨c, hc⟩ := hcred
  by_cases hemp : Script.rgs_to_delete rgs = []
  · constructor
    · intro name
      constructor
      · intro hmem
        exfalso
        simp [Script.reset, hc, hemp] at hmem
      · rintro ⟨hy, rg, hm, hn, hf⟩
        exfalso
        have hin : name ∈ Script.rgs_to_delete rgs :=
          (Script.mem_rgs_to_delete rgs name).mpr ⟨rg, hm, hn, hf⟩
        rw [hemp] at hin
        simp at hin
    · intro _
      simp [Script.reset, hc, hemp]
  · by_cases hy : confirm.toLower = "y"
    · constructor
      · intro name
        constructor
        · intro hmem
          simp [Script.reset, hc, hemp, hy] at hmem
          exact ⟨hy, (Script.mem_rgs_to_delete rgs name).mp hmem⟩
        · rintro ⟨_, rg, hm, hn, hf⟩
          have hin : name ∈ Script.rgs_to_delete rgs :=
            (Script.mem_rgs_to_delete rgs name).mpr ⟨rg, hm, hn, hf⟩
          simp [Script.reset, hc, hemp, hy]
          exact hin
      · intro hother
        rcases hother with h | h
        · exact absurd hy h
        · exact absurd h hemp
    · constructor
      · intro name
        constructor
        · intro hmem
          exfalso
          simp [Script.reset, hc, hemp, hy] at hmem
        · rintro ⟨hy2, _⟩
          exact absurd hy2 hy
      · intro _
        simp [Script.reset, hc, hemp, hy]

/-- C9 witness: the statement instantiated at a listing holding one
tagged group and the confirmation Y. -/
theorem reset_delete_conditions_witness :
    (∀ name, Script.AzureOp.beginDeleteResourceGroup name ∈
        (Script.reset (fun _ => some "x")
          [⟨"blazetest-rg", some [("blazetest", "true")]⟩] "Y").1 ↔
      ("Y".toLower = "y" ∧
        ∃ rg ∈ [(⟨"blazetest-rg", some [("blazetest", "true")]⟩ :
            Script.ResourceGroup)],
          rg.name = name ∧ Script.resetFilter rg = true)) ∧
    (("Y".toLower ≠ "y" ∨
        Script.rgs_to_delete
          [⟨"blazetest-rg", some [("blazetest", "true")]⟩] = []) →
      (Script.reset (fun _ => some "x")
          [⟨"blazetest-rg", some [("blazetest", "true")]⟩] "Y").1 =
        [Script.AzureOp.listResourceGroups]) :=
  reset_delete_conditions (fun _ => some "x")
    [⟨"blazetest-rg", some [("blazetest", "true")]⟩] "Y"
    ⟨(⟨"x", "x", "x"⟩, "x"), rfl⟩
